import Mathlib

/-!
# Verification of the clinical readmission-risk app (`src/app.py`)

Shallow embedding of the app's core logic:

* the feature-preparation stage (lines 108-135 of `app.py`): building the
  one-row pandas DataFrame, derived features, threshold flags, schema
  default-fill, diagnosis-group one-hot, and the final reindex to
  `feature_columns`;
* the risk-tier thresholding (lines 145-153);
* the report-identifier derivation (lines 193-195): SHA-256 of the
  `f"{now}-{age}-{diagnosis_code}"` string, hex digest truncated to 12
  characters and uppercased.

Python floats are modelled as rationals; Python ints as integers.  A one-row
DataFrame is modelled as an association list from column names to values,
where assignment to a fresh column appends it (pandas column insertion order)
and assignment to an existing column overwrites it in place.  Indexing an
empty string (`diagnosis_code[0]`) raises in Python, so the stage that
extracts the diagnosis group returns an `Option` and the whole feature build
is `Option`-valued.
-/

namespace ClinicalApp

/-- Gender as offered by the app's selectbox: `["Male", "Female"]`. -/
inductive Gender where
  | Male : Gender
  | Female : Gender
deriving DecidableEq, Repr

/-- The raw form inputs of `app.py` (lines 79-103), one field per widget,
with the source's variable names. Ints are modelled as `ℤ`, floats as `ℚ`. -/
structure PatientProfile where
  age : ℤ
  gender : Gender
  los : ℤ
  prev_adm : ℤ
  comorbidity_count : ℤ
  num_medications : ℤ
  diagnosis_code : String
  avg_creatinine : ℚ
  avg_hemoglobin : ℚ
  avg_glucose : ℚ
deriving DecidableEq, Repr

/-- A one-row DataFrame: ordered association list column-name ↦ value. -/
abbrev Df := List (String × ℚ)

/-- `c in df.columns`. -/
def hasCol (df : Df) (c : String) : Bool :=
  df.any (fun p => p.1 = c)

/-- `df[c] = v`: overwrite the column in place when it exists, else append it
(pandas inserts new columns at the end). -/
def setCol (df : Df) (c : String) (v : ℚ) : Df :=
  if hasCol df c then df.map (fun p => if p.1 = c then (c, v) else p)
  else df ++ [(c, v)]

/-- Read a column's value (the first matching entry), `none` when absent. -/
def getCol? (df : Df) (c : String) : Option ℚ :=
  match df with
  | [] => none
  | p :: l => if p.1 = c then some p.2 else getCol? l c

/-- `int(b)` applied to a Python comparison result. -/
def pyInt (b : Bool) : ℚ := if b then 1 else 0

/-- Line 108: `icd_group = diagnosis_code[0].upper()` — `none` when the code
is empty (Python raises `IndexError` there). The one-character Python string
is modelled as a one-character Lean string. -/
def icdGroup? (diagnosis_code : String) : Option String :=
  diagnosis_code.data.head?.map (fun c => String.singleton c.toUpper)

/-- Lines 110-120: the initial `input_data` DataFrame, columns in the
constructor's order. -/
def baseInputData (p : PatientProfile) : Df :=
  [("age", (p.age : ℚ)),
   ("length_of_stay", (p.los : ℚ)),
   ("previous_admissions", (p.prev_adm : ℚ)),
   ("comorbidity_count", (p.comorbidity_count : ℚ)),
   ("avg_creatinine", p.avg_creatinine),
   ("avg_hemoglobin", p.avg_hemoglobin),
   ("avg_glucose", p.avg_glucose),
   ("num_medications", (p.num_medications : ℚ)),
   ("gender_M", if p.gender = Gender.Male then 1 else 0)]

/-- Lines 122-126: derived interaction term and the four threshold flags,
appended in source order. -/
def derivedInputData (p : PatientProfile) : Df :=
  let d := baseInputData p
  let d := setCol d "los_x_comorb" ((p.los * p.comorbidity_count : ℤ) : ℚ)
  let d := setCol d "glucose_flag" (pyInt (p.avg_glucose > 200))
  let d := setCol d "creatinine_flag" (pyInt (p.avg_creatinine > 2))
  let d := setCol d "hb_flag" (pyInt (p.avg_hemoglobin < 10))
  setCol d "polypharmacy_flag" (pyInt (p.num_medications ≥ 15))

/-- Lines 128-130: `for col in feature_columns: if col not in
input_data.columns: input_data[col] = 0`. -/
def fillDefaults (df : Df) (feature_columns : List String) : Df :=
  feature_columns.foldl
    (fun d col => if hasCol d col then d else setCol d col 0) df

/-- Lines 132-133: `if icd_group in feature_columns: input_data[icd_group] = 1`. -/
def setIcdGroup (df : Df) (icd_group : String) (feature_columns : List String) : Df :=
  if icd_group ∈ feature_columns then setCol df icd_group 1 else df

/-- Line 135: `input_data = input_data[feature_columns]` — column selection,
which raises (here: `none`) if any requested column is absent. -/
def selectCols? (df : Df) : List String → Option Df
  | [] => some []
  | c :: cs =>
    match getCol? df c, selectCols? df cs with
    | some v, some rest => some ((c, v) :: rest)
    | _, _ => none

/-- Lines 108-135 composed: the whole feature-preparation stage. -/
def buildFeatures (p : PatientProfile) (feature_columns : List String) : Option Df :=
  (icdGroup? p.diagnosis_code).bind (fun icd_group =>
    let d := derivedInputData p
    let d := fillDefaults d feature_columns
    let d := setIcdGroup d icd_group feature_columns
    selectCols? d feature_columns)

/-- The column names `app.py` assigns explicitly (lines 110-126): the nine
direct fields, the interaction term and the four flags. -/
def producedColumns : List String :=
  ["age", "length_of_stay", "previous_admissions", "comorbidity_count",
   "avg_creatinine", "avg_hemoglobin", "avg_glucose", "num_medications",
   "gender_M", "los_x_comorb", "glucose_flag", "creatinine_flag",
   "hb_flag", "polypharmacy_flag"]

/-- Lines 145-153: tier thresholding; returns the `level` string and the
gauge `color` exactly as the source assigns them.  The decimal literals
`0.50` and `0.30` are written as the rationals `50/100` and `30/100`
(`mkRat` keeps the definition kernel-computable). -/
def classifyRisk (prob : ℚ) : String × String :=
  if prob ≥ mkRat 50 100 then ("HIGH", "#d62828")
  else if prob ≥ mkRat 30 100 then ("MODERATE", "#f77f00")
  else ("LOW", "#2a9d8f")

/-! ## SHA-256 (for the report identifier, lines 193-195)

32-bit words are natural numbers kept below `2 ^ 32` by explicit `% 2 ^ 32`. -/

/-- Right-rotation of a 32-bit word. -/
def rotr32 (n x : ℕ) : ℕ := (x / 2 ^ n + x % 2 ^ n * 2 ^ (32 - n)) % 2 ^ 32

/-- SHA-256 Σ₀. -/
def bigSigma0 (x : ℕ) : ℕ := rotr32 2 x ^^^ rotr32 13 x ^^^ rotr32 22 x

/-- SHA-256 Σ₁. -/
def bigSigma1 (x : ℕ) : ℕ := rotr32 6 x ^^^ rotr32 11 x ^^^ rotr32 25 x

/-- SHA-256 σ₀. -/
def smallSigma0 (x : ℕ) : ℕ := rotr32 7 x ^^^ rotr32 18 x ^^^ x / 2 ^ 3

/-- SHA-256 σ₁. -/
def smallSigma1 (x : ℕ) : ℕ := rotr32 17 x ^^^ rotr32 19 x ^^^ x / 2 ^ 10

/-- SHA-256 `Ch(e,f,g)`; bitwise-not is xor with the 32-bit mask. -/
def chFn (e f g : ℕ) : ℕ := (e &&& f) ^^^ ((e ^^^ (2 ^ 32 - 1)) &&& g)

/-- SHA-256 `Maj(a,b,c)`. -/
def majFn (a b c : ℕ) : ℕ := (a &&& b) ^^^ (a &&& c) ^^^ (b &&& c)

/-- The 64 SHA-256 round constants. -/
def sha256K : List ℕ :=
  [1116352408, 1899447441, 3049323471, 3921009573, 961987163,
   1508970993, 2453635748, 2870763221, 3624381080, 310598401,
   607225278, 1426881987, 1925078388, 2162078206, 2614888103,
   3248222580, 3835390401, 4022224774, 264347078, 604807628,
   770255983, 1249150122, 1555081692, 1996064986, 2554220882,
   2821834349, 2952996808, 3210313671, 3336571891, 3584528711,
   113926993, 338241895, 666307205, 773529912, 1294757372,
   1396182291, 1695183700, 1986661051, 2177026350, 2456956037,
   2730485921, 2820302411, 3259730800, 3345764771, 3516065817,
   3600352804, 4094571909, 275423344, 430227734, 506948616,
   659060556, 883997877, 958139571, 1322822218, 1537002063,
   1747873779, 1955562222, 2024104815, 2227730452, 2361852424,
   2428436474, 2756734187, 3204031479, 3329325298]

/-- The eight working 32-bit words of the hash state. -/
abbrev Sha256State := ℕ × ℕ × ℕ × ℕ × ℕ × ℕ × ℕ × ℕ

/-- The SHA-256 initial hash value. -/
def sha256Init : Sha256State :=
  (1779033703, 3144134277, 1013904242, 2773480762,
   1359893119, 2600822924, 528734635, 1541459225)

/-- SHA-256 padding: append `0x80`, zero bytes up to 56 mod 64, then the
bit length as eight big-endian bytes. -/
def sha256Pad (msg : List ℕ) : List ℕ :=
  let L := msg.length
  let zeros := (64 + 56 - (L + 1) % 64) % 64
  msg ++ [0x80] ++ List.replicate zeros 0 ++
    [8 * L / 2 ^ 56 % 256, 8 * L / 2 ^ 48 % 256, 8 * L / 2 ^ 40 % 256,
     8 * L / 2 ^ 32 % 256, 8 * L / 2 ^ 24 % 256, 8 * L / 2 ^ 16 % 256,
     8 * L / 2 ^ 8 % 256, 8 * L % 256]

/-- Split a (padded) message into its 64-byte chunks. -/
def chunksOf64 (l : List ℕ) : List (List ℕ) :=
  (List.range (l.length / 64)).map (fun i => (l.drop (64 * i)).take 64)

/-- The `i`-th big-endian 32-bit word of a chunk. -/
def wordAt (chunk : List ℕ) (i : ℕ) : ℕ :=
  chunk.getD (4 * i) 0 * 2 ^ 24 + chunk.getD (4 * i + 1) 0 * 2 ^ 16 +
    chunk.getD (4 * i + 2) 0 * 2 ^ 8 + chunk.getD (4 * i + 3) 0

/-- The 64-entry message schedule of a chunk. -/
def sha256Schedule (chunk : List ℕ) : List ℕ :=
  (List.range 48).foldl
    (fun w _ =>
      let n := w.length
      w ++ [(w.getD (n - 16) 0 + smallSigma0 (w.getD (n - 15) 0) +
             w.getD (n - 7) 0 + smallSigma1 (w.getD (n - 2) 0)) % 2 ^ 32])
    ((List.range 16).map (wordAt chunk))

/-- One SHA-256 round: absorb one `(k, w)` pair into the working state. -/
def sha256Round (st : Sha256State) (kw : ℕ × ℕ) : Sha256State :=
  match st, kw with
  | (a, b, c, d, e, f, g, h), (k, w) =>
    let t1 := (h + bigSigma1 e + chFn e f g + k + w) % 2 ^ 32
    let t2 := (bigSigma0 a + majFn a b c) % 2 ^ 32
    ((t1 + t2) % 2 ^ 32, a, b, c, (d + t1) % 2 ^ 32, e, f, g)

/-- Compress one 64-byte chunk into the hash state. -/
def sha256Compress (st : Sha256State) (chunk : List ℕ) : Sha256State :=
  match st, (sha256K.zip (sha256Schedule chunk)).foldl sha256Round st with
  | (a, b, c, d, e, f, g, h), (a', b', c', d', e', f', g', h') =>
    ((a + a') % 2 ^ 32, (b + b') % 2 ^ 32, (c + c') % 2 ^ 32, (d + d') % 2 ^ 32,
     (e + e') % 2 ^ 32, (f + f') % 2 ^ 32, (g + g') % 2 ^ 32, (h + h') % 2 ^ 32)

/-- A 32-bit word as four big-endian bytes. -/
def wordBytes (x : ℕ) : List ℕ :=
  [x / 2 ^ 24 % 256, x / 2 ^ 16 % 256, x / 2 ^ 8 % 256, x % 256]

/-- The final hash state as 32 digest bytes. -/
def digestBytes (st : Sha256State) : List ℕ :=
  match st with
  | (a, b, c, d, e, f, g, h) =>
    wordBytes a ++ wordBytes b ++ wordBytes c ++ wordBytes d ++
      wordBytes e ++ wordBytes f ++ wordBytes g ++ wordBytes h

/-- The SHA-256 digest of a byte string: 32 bytes. -/
def sha256 (msg : List ℕ) : List ℕ :=
  digestBytes ((chunksOf64 (sha256Pad msg)).foldl sha256Compress sha256Init)

/-- The sixteen lowercase hex digits. -/
def hexDigits : List Char := "0123456789abcdef".data

/-- The hex digit of a nibble. -/
def hexChar (n : ℕ) : Char := hexDigits.getD n '0'

/-- The two lowercase hex digits of one byte (`%02x`). -/
def byteHex (b : ℕ) : List Char := [hexChar (b / 16 % 16), hexChar (b % 16)]

/-- `hexdigest()`: the digest bytes as lowercase hex characters. -/
def hexdigestChars (bytes : List ℕ) : List Char := bytes.flatMap byteHex

/-- UTF-8 encoding of one character (what `str.encode()` emits per code
point). -/
def utf8EncodeChar (c : Char) : List ℕ :=
  let n := c.toNat
  if n < 0x80 then [n]
  else if n < 0x800 then [0xc0 + n / 64, 0x80 + n % 64]
  else if n < 0x10000 then [0xe0 + n / 4096, 0x80 + n / 64 % 64, 0x80 + n % 64]
  else [0xf0 + n / 262144, 0x80 + n / 4096 % 64, 0x80 + n / 64 % 64, 0x80 + n % 64]

/-- `str.encode()`: the UTF-8 bytes of a string. -/
def utf8Bytes (s : String) : List ℕ := s.data.flatMap utf8EncodeChar

/-- Lines 193-195:
`hashlib.sha256(f"{datetime.now()}-{age}-{diagnosis_code}".encode()).hexdigest()[:12].upper()`.
The wall-clock timestamp is passed in as the string Python would
interpolate for `datetime.now()`. -/
def reportId (now : String) (age : ℤ) (diagnosis_code : String) : String :=
  let payload := now ++ "-" ++ toString age ++ "-" ++ diagnosis_code
  String.mk (((hexdigestChars (sha256 (utf8Bytes payload))).take 12).map Char.toUpper)

/-- The end-to-end scenario of the spec: age 65, Male, diagnosis "I50.9",
LOS 7, 2 previous admissions, 2 comorbidities, 10 medications,
creatinine 1.2, hemoglobin 12.0, glucose 110. -/
def scenarioProfile : PatientProfile :=
  { age := 65, gender := Gender.Male, los := 7, prev_adm := 2,
    comorbidity_count := 2, num_medications := 10, diagnosis_code := "I50.9",
    avg_creatinine := mkRat 6 5, avg_hemoglobin := 12, avg_glucose := 110 }

/-- A demonstration schema: the fourteen produced columns, a diagnosis-group
column "I" and an unproduced column "xtra". -/
def demoSchema : List String :=
  ["age", "length_of_stay", "previous_admissions", "comorbidity_count",
   "avg_creatinine", "avg_hemoglobin", "avg_glucose", "num_medications",
   "gender_M", "los_x_comorb", "glucose_flag", "creatinine_flag",
   "hb_flag", "polypharmacy_flag", "I", "xtra"]

/-- The feature vector the scenario produces on the demonstration schema. -/
def demoFv : Df :=
  [("age", 65), ("length_of_stay", 7), ("previous_admissions", 2),
   ("comorbidity_count", 2), ("avg_creatinine", mkRat 6 5),
   ("avg_hemoglobin", 12), ("avg_glucose", 110), ("num_medications", 10),
   ("gender_M", 1), ("los_x_comorb", 14), ("glucose_flag", 0),
   ("creatinine_flag", 0), ("hb_flag", 0), ("polypharmacy_flag", 0),
   ("I", 1), ("xtra", 0)]

/-- A profile whose diagnosis code is the empty string: line 108 of the
source (`diagnosis_code[0]`) raises on it. -/
def emptyCodeProfile : PatientProfile :=
  { scenarioProfile with diagnosis_code := "" }

/-- A profile whose diagnosis code starts with a non-alphabetic character. -/
def numericCodeProfile : PatientProfile :=
  { scenarioProfile with diagnosis_code := "5X" }

/-- The sixteen hex digits after uppercasing. -/
def hexUpper : List Char := "0123456789ABCDEF".data

/-- A sentinel-led base-2^32 value of a character list; distinct lists get
distinct values, and lists of bounded length get bounded values. -/
def charListVal : List Char → ℕ
  | [] => 1
  | c :: l => charListVal l * 2 ^ 32 + c.toNat

/-! ## Basic lemmas about the one-row DataFrame model -/

theorem hasCol_iff_getCol? (df : Df) (c : String) :
    hasCol df c = true ↔ (getCol? df c).isSome = true := by
  induction df with
  | nil => simp [hasCol, getCol?]
  | cons p l ih =>
    by_cases hp : p.1 = c
    · simp [hasCol, List.any_cons, getCol?, hp]
    · simp only [hasCol, List.any_cons, Bool.or_eq_true, decide_eq_true_eq,
        getCol?, hp, if_false] at ih ⊢
      simpa [hp] using ih

theorem getCol?_overwrite_self {l : Df} {c : String} (v : ℚ)
    (h : hasCol l c = true) :
    getCol? (l.map (fun p => if p.1 = c then (c, v) else p)) c = some v := by
  induction l with
  | nil => simp [hasCol] at h
  | cons p t ih =>
    by_cases hp : p.1 = c
    · simp [getCol?, hp]
    · simp only [hasCol, List.any_cons, Bool.or_eq_true, decide_eq_true_eq] at h
      rcases h with h | h
      · exact absurd h hp
      · simpa [getCol?, hp] using ih h

theorem getCol?_overwrite_ne {l : Df} {c c' : String} (v : ℚ) (h : c' ≠ c) :
    getCol? (l.map (fun p => if p.1 = c then (c, v) else p)) c' = getCol? l c' := by
  induction l with
  | nil => simp [getCol?]
  | cons p t ih =>
    by_cases hp : p.1 = c
    · have hpc' : p.1 ≠ c' := by rw [hp]; exact fun hx => h hx.symm
      have hcc' : c ≠ c' := fun hx => h hx.symm
      simpa [getCol?, hp, hcc', hpc'] using ih
    · by_cases hp' : p.1 = c'
      · simp [getCol?, hp, hp', h]
      · simpa [getCol?, hp, hp'] using ih

theorem getCol?_append_self {l : Df} {c : String} (v : ℚ)
    (h : hasCol l c = false) :
    getCol? (l ++ [(c, v)]) c = some v := by
  induction l with
  | nil => simp [getCol?]
  | cons p t ih =>
    simp only [hasCol, List.any_cons, Bool.or_eq_false_iff, decide_eq_false_iff_not] at h
    simpa [getCol?, h.1] using ih (by simpa [hasCol] using h.2)

theorem getCol?_append_ne {l : Df} {c c' : String} (v : ℚ) (h : c' ≠ c) :
    getCol? (l ++ [(c, v)]) c' = getCol? l c' := by
  induction l with
  | nil => simp [getCol?, Ne.symm h]
  | cons p t ih =>
    by_cases hp' : p.1 = c'
    · simp [getCol?, hp']
    · simpa [getCol?, hp'] using ih

theorem getCol?_setCol_self (df : Df) (c : String) (v : ℚ) :
    getCol? (setCol df c v) c = some v := by
  unfold setCol
  by_cases h : hasCol df c = true
  · simpa [h] using getCol?_overwrite_self v h
  · have hf : hasCol df c = false := by
      cases hx : hasCol df c
      · rfl
      · exact absurd hx h
    simpa [hf] using getCol?_append_self v hf

theorem getCol?_setCol_ne (df : Df) {c c' : String} (v : ℚ) (h : c' ≠ c) :
    getCol? (setCol df c v) c' = getCol? df c' := by
  unfold setCol
  by_cases hx : hasCol df c = true
  · simpa [hx] using getCol?_overwrite_ne v h
  · simpa [hx] using getCol?_append_ne v h

theorem hasCol_setCol_self (df : Df) (c : String) (v : ℚ) :
    hasCol (setCol df c v) c = true :=
  (hasCol_iff_getCol? _ _).2 (by simp [getCol?_setCol_self])

theorem hasCol_setCol_ne (df : Df) {c c' : String} (v : ℚ) (h : c' ≠ c) :
    hasCol (setCol df c v) c' = hasCol df c' := by
  by_cases hc : hasCol df c' = true
  · rw [hc]
    exact (hasCol_iff_getCol? _ _).2
      (by rw [getCol?_setCol_ne df v h]; exact (hasCol_iff_getCol? _ _).1 hc)
  · have hf : hasCol df c' = false := by
      cases hx : hasCol df c'
      · rfl
      · exact absurd hx hc
    rw [hf]
    cases hy : hasCol (setCol df c v) c'
    · rfl
    · have := (hasCol_iff_getCol? _ _).1 hy
      rw [getCol?_setCol_ne df v h] at this
      rw [(hasCol_iff_getCol? df c').2 this] at hf
      exact absurd hf (by simp)

/-! ## The default-fill loop (lines 128-130) -/

theorem fillDefaults_nil (df : Df) : fillDefaults df [] = df := rfl

theorem fillDefaults_cons (df : Df) (c : String) (cs : List String) :
    fillDefaults df (c :: cs) =
      fillDefaults (if hasCol df c then df else setCol df c 0) cs := rfl

theorem hasCol_fillDefaults_of_hasCol {df : Df} {c : String} (cols : List String)
    (h : hasCol df c = true) : hasCol (fillDefaults df cols) c = true := by
  induction cols generalizing df with
  | nil => exact h
  | cons c0 cs ih =>
    rw [fillDefaults_cons]
    by_cases hc0 : hasCol df c0 = true
    · simpa [hc0] using ih h
    · by_cases hcc : c = c0
      · subst hcc
        exact absurd h hc0
      · rw [if_neg hc0]
        exact ih (by rw [hasCol_setCol_ne df 0 hcc]; exact h)

theorem hasCol_fillDefaults_of_mem {c : String} {cols : List String}
    (df : Df) (h : c ∈ cols) : hasCol (fillDefaults df cols) c = true := by
  induction cols generalizing df with
  | nil => cases h
  | cons c0 cs ih =>
    rw [fillDefaults_cons]
    rcases List.mem_cons.1 h with hcc | hmem
    · subst hcc
      by_cases hc0 : hasCol df c = true
      · simpa [hc0] using hasCol_fillDefaults_of_hasCol cs hc0
      · rw [if_neg hc0]
        exact hasCol_fillDefaults_of_hasCol cs (hasCol_setCol_self df c 0)
    · by_cases hc0 : hasCol df c0 = true
      · simpa [hc0] using ih df hmem
      · rw [if_neg hc0]
        exact ih _ hmem

theorem getCol?_fillDefaults_of_hasCol {df : Df} {c : String} (cols : List String)
    (h : hasCol df c = true) : getCol? (fillDefaults df cols) c = getCol? df c := by
  induction cols generalizing df with
  | nil => rfl
  | cons c0 cs ih =>
    rw [fillDefaults_cons]
    by_cases hc0 : hasCol df c0 = true
    · simpa [hc0] using ih h
    · by_cases hcc : c = c0
      · subst hcc
        exact absurd h hc0
      · rw [if_neg hc0]
        rw [ih (by rw [hasCol_setCol_ne df 0 hcc]; exact h)]
        exact getCol?_setCol_ne df 0 hcc

theorem getCol?_fillDefaults_of_not_hasCol {df : Df} {c : String} {cols : List String}
    (h : hasCol df c = false) (hm : c ∈ cols) :
    getCol? (fillDefaults df cols) c = some 0 := by
  induction cols generalizing df with
  | nil => cases hm
  | cons c0 cs ih =>
    rw [fillDefaults_cons]
    by_cases hcc : c = c0
    · subst hcc
      rw [if_neg (by simp [h])]
      rw [getCol?_fillDefaults_of_hasCol cs (hasCol_setCol_self df c 0)]
      exact getCol?_setCol_self df c 0
    · rcases List.mem_cons.1 hm with hx | hmem
      · exact absurd hx hcc
      · by_cases hc0 : hasCol df c0 = true
        · simpa [hc0] using ih h hmem
        · rw [if_neg hc0]
          exact ih (by rw [hasCol_setCol_ne df 0 hcc]; exact h) hmem

/-! ## The diagnosis-group one-hot (lines 132-133) -/

theorem setIcdGroup_of_not_mem {g : String} {cols : List String} (df : Df)
    (h : g ∉ cols) : setIcdGroup df g cols = df := if_neg h

theorem getCol?_setIcdGroup_ne (df : Df) {c g : String} (cols : List String)
    (h : c ≠ g) : getCol? (setIcdGroup df g cols) c = getCol? df c := by
  unfold setIcdGroup
  by_cases hg : g ∈ cols
  · simpa [hg] using getCol?_setCol_ne df 1 h
  · simp [hg]

theorem getCol?_setIcdGroup_self (df : Df) {g : String} {cols : List String}
    (h : g ∈ cols) : getCol? (setIcdGroup df g cols) g = some 1 := by
  unfold setIcdGroup
  simpa [h] using getCol?_setCol_self df g 1

theorem hasCol_setIcdGroup_of_hasCol {df : Df} {c : String} (g : String)
    (cols : List String) (h : hasCol df c = true) :
    hasCol (setIcdGroup df g cols) c = true := by
  unfold setIcdGroup
  by_cases hg : g ∈ cols
  · by_cases hcg : c = g
    · subst hcg
      simpa [hg] using hasCol_setCol_self df c 1
    · simpa [hg] using (hasCol_setCol_ne df 1 hcg).trans h
  · simpa [hg] using h

/-! ## The final schema selection (line 135) -/

theorem selectCols?_isSome {df : Df} {cols : List String}
    (h : ∀ c ∈ cols, hasCol df c = true) : (selectCols? df cols).isSome = true := by
  induction cols with
  | nil => simp [selectCols?]
  | cons c cs ih =>
    have hc := (hasCol_iff_getCol? df c).1 (h c (List.mem_cons_self c cs))
    rcases Option.isSome_iff_exists.1 hc with ⟨v, hv⟩
    have hcs := ih (fun x hx => h x (List.mem_cons_of_mem c hx))
    rcases Option.isSome_iff_exists.1 hcs with ⟨rest, hrest⟩
    simp [selectCols?, hv, hrest]

theorem selectCols?_map_fst {df : Df} {cols : List String} {fv : Df}
    (h : selectCols? df cols = some fv) : fv.map Prod.fst = cols := by
  induction cols generalizing fv with
  | nil =>
    simp only [selectCols?, Option.some.injEq] at h
    simp [← h]
  | cons c cs ih =>
    simp only [selectCols?] at h
    cases hv : getCol? df c with
    | none => rw [hv] at h; cases h
    | some v =>
      rw [hv] at h
      cases hrest : selectCols? df cs with
      | none => rw [hrest] at h; cases h
      | some rest =>
        rw [hrest] at h
        cases h
        simp [ih hrest]

theorem getCol?_selectCols? {df : Df} {cols : List String} {fv : Df} {c : String}
    (h : selectCols? df cols = some fv) (hc : c ∈ cols) :
    getCol? fv c = getCol? df c := by
  induction cols generalizing fv with
  | nil => cases hc
  | cons c0 cs ih =>
    simp only [selectCols?] at h
    cases hv : getCol? df c0 with
    | none => rw [hv] at h; cases h
    | some v =>
      rw [hv] at h
      cases hrest : selectCols? df cs with
      | none => rw [hrest] at h; cases h
      | some rest =>
        rw [hrest] at h
        cases h
        by_cases hcc : c0 = c
        · subst hcc
          simp [getCol?, hv]
        · rcases List.mem_cons.1 hc with hx | hmem
          · exact absurd hx.symm hcc
          · simpa [getCol?, hcc] using ih hrest hmem

/-! ## The derived DataFrame in literal form -/

theorem derivedInputData_eq (p : PatientProfile) : derivedInputData p =
    [("age", (p.age : ℚ)),
     ("length_of_stay", (p.los : ℚ)),
     ("previous_admissions", (p.prev_adm : ℚ)),
     ("comorbidity_count", (p.comorbidity_count : ℚ)),
     ("avg_creatinine", p.avg_creatinine),
     ("avg_hemoglobin", p.avg_hemoglobin),
     ("avg_glucose", p.avg_glucose),
     ("num_medications", (p.num_medications : ℚ)),
     ("gender_M", if p.gender = Gender.Male then 1 else 0),
     ("los_x_comorb", ((p.los * p.comorbidity_count : ℤ) : ℚ)),
     ("glucose_flag", pyInt (p.avg_glucose > 200)),
     ("creatinine_flag", pyInt (p.avg_creatinine > 2)),
     ("hb_flag", pyInt (p.avg_hemoglobin < 10)),
     ("polypharmacy_flag", pyInt (p.num_medications ≥ 15))] := rfl

theorem hasCol_derivedInputData (p : PatientProfile) (c : String) :
    hasCol (derivedInputData p) c = true ↔ c ∈ producedColumns := by
  rw [derivedInputData_eq]
  simp only [hasCol, producedColumns, List.any_cons, List.any_nil,
    Bool.or_eq_true, decide_eq_true_eq, List.mem_cons, List.not_mem_nil]
  constructor
  · rintro (h | h | h | h | h | h | h | h | h | h | h | h | h | h | h) <;>
      simp_all
  · rintro (h | h | h | h | h | h | h | h | h | h | h | h | h | h | h) <;>
      simp_all

/-! ## The diagnosis-group string (line 108) -/

theorem icdGroup?_eq_some {s g : String} (h : icdGroup? s = some g) :
    ∃ ch : Char, g = String.singleton ch := by
  unfold icdGroup? at h
  cases hd : s.data with
  | nil => rw [hd] at h; cases h
  | cons c0 rest =>
    rw [hd] at h
    simp only [List.head?, Option.map_some] at h
    exact ⟨c0.toUpper, (Option.some.injEq _ _ ▸ h).symm⟩

theorem icdGroup?_isSome_of_ne_empty {s : String} (h : s ≠ "") :
    (icdGroup? s).isSome = true := by
  unfold icdGroup?
  cases hd : s.data with
  | nil =>
    refine absurd ?_ h
    cases s with
    | mk d =>
      simp only [String.data] at hd
      rw [hd]
  | cons c0 rest => simp

theorem singleton_ne_of_mem_produced {g : String} {c : String}
    (hg : ∃ ch : Char, g = String.singleton ch) (hc : c ∈ producedColumns) :
    c ≠ g := by
  rcases hg with ⟨ch, rfl⟩
  intro heq
  have hdata : c.data = [ch] := by rw [heq]; rfl
  have hlen : c.data.length = 1 := by rw [hdata]; rfl
  fin_cases hc <;> simp at hlen

/-! ## Decomposing a successful feature build -/

theorem buildFeatures_eq_some {p : PatientProfile} {cols : List String} {fv : Df}
    (h : buildFeatures p cols = some fv) :
    ∃ g, icdGroup? p.diagnosis_code = some g ∧
      selectCols? (setIcdGroup (fillDefaults (derivedInputData p) cols) g cols) cols
        = some fv := by
  unfold buildFeatures at h
  cases hg : icdGroup? p.diagnosis_code with
  | none => rw [hg] at h; cases h
  | some g =>
    rw [hg] at h
    exact ⟨g, rfl, h⟩

theorem getCol?_buildFeatures {p : PatientProfile} {cols : List String} {fv : Df}
    {c : String} (h : buildFeatures p cols = some fv) (hc : c ∈ cols) :
    ∃ g, icdGroup? p.diagnosis_code = some g ∧
      getCol? fv c =
        getCol? (setIcdGroup (fillDefaults (derivedInputData p) cols) g cols) c := by
  rcases buildFeatures_eq_some h with ⟨g, hg, hsel⟩
  exact ⟨g, hg, getCol?_selectCols? hsel hc⟩

theorem getCol?_buildFeatures_produced {p : PatientProfile} {cols : List String}
    {fv : Df} {c : String} (h : buildFeatures p cols = some fv) (hc : c ∈ cols)
    (hp : c ∈ producedColumns) :
    getCol? fv c = getCol? (derivedInputData p) c := by
  rcases getCol?_buildFeatures h hc with ⟨g, hg, heq⟩
  have hne : c ≠ g := singleton_ne_of_mem_produced (icdGroup?_eq_some hg) hp
  rw [heq, getCol?_setIcdGroup_ne _ _ hne,
    getCol?_fillDefaults_of_hasCol _ ((hasCol_derivedInputData p c).2 hp)]

/-! ## The explicitly produced columns keep their derived values -/

theorem getCol?_derived_gender (p : PatientProfile) :
    getCol? (derivedInputData p) "gender_M" =
      some (if p.gender = Gender.Male then 1 else 0) := by
  rw [derivedInputData_eq]
  simp [getCol?]

theorem getCol?_derived_los_x_comorb (p : PatientProfile) :
    getCol? (derivedInputData p) "los_x_comorb" =
      some ((p.los * p.comorbidity_count : ℤ) : ℚ) := by
  rw [derivedInputData_eq]
  simp [getCol?]

theorem getCol?_derived_glucose_flag (p : PatientProfile) :
    getCol? (derivedInputData p) "glucose_flag" =
      some (pyInt (p.avg_glucose > 200)) := by
  rw [derivedInputData_eq]
  simp [getCol?]

theorem getCol?_derived_creatinine_flag (p : PatientProfile) :
    getCol? (derivedInputData p) "creatinine_flag" =
      some (pyInt (p.avg_creatinine > 2)) := by
  rw [derivedInputData_eq]
  simp [getCol?]

theorem getCol?_derived_hb_flag (p : PatientProfile) :
    getCol? (derivedInputData p) "hb_flag" =
      some (pyInt (p.avg_hemoglobin < 10)) := by
  rw [derivedInputData_eq]
  simp [getCol?]

theorem getCol?_derived_polypharmacy_flag (p : PatientProfile) :
    getCol? (derivedInputData p) "polypharmacy_flag" =
      some (pyInt (p.num_medications ≥ 15)) := by
  rw [derivedInputData_eq]
  simp [getCol?]

/-! ## A nonempty diagnosis code makes the whole feature build succeed -/

theorem buildFeatures_isSome (p : PatientProfile) (cols : List String)
    (h : p.diagnosis_code ≠ "") : (buildFeatures p cols).isSome = true := by
  rcases Option.isSome_iff_exists.1 (icdGroup?_isSome_of_ne_empty h) with ⟨g, hgg⟩
  unfold buildFeatures
  rw [hgg, Option.some_bind]
  exact selectCols?_isSome (fun c hc =>
    hasCol_setIcdGroup_of_hasCol g cols (hasCol_fillDefaults_of_mem _ hc))

/-! ## Concrete inputs used by witnesses and counterexamples -/

/-! ## Claim theorems -/

/-- C1: for every PatientProfile and schema, a FeatureVector produced by the
feature-building stage has exactly the schema's columns, in the schema's
order, with no extra and no missing columns. -/
theorem featureVector_columns_match_schema (p : PatientProfile)
    (cols : List String) (fv : Df) (h : buildFeatures p cols = some fv) :
    fv.map Prod.fst = cols := by
  rcases buildFeatures_eq_some h with ⟨g, _, hsel⟩
  exact selectCols?_map_fst hsel

/-- Witness for C1: the end-to-end scenario on the demonstration schema. -/
theorem featureVector_columns_match_schema_witness :
    demoFv.map Prod.fst = demoSchema :=
  featureVector_columns_match_schema scenarioProfile demoSchema demoFv (by decide)

/-- C2 counterexample: with an empty diagnosis code the feature build does
not complete without error — `diagnosis_code[0]` (line 108) has no first
character, modelled as `none`. -/
theorem emptyCode_buildFeatures_fails :
    buildFeatures emptyCodeProfile demoSchema = none := by decide

/-- C2 (amended): for every diagnosis code with at least one character —
including ones whose first character is non-alphabetic — feature building
completes, and when the uppercased first character matches no schema column
the one-hot step is skipped: the result is exactly the selection on the
filled DataFrame, with no exception.  (The empty string, by contrast, makes
line 108 raise.) -/
theorem nonemptyCode_buildFeatures_succeeds (p : PatientProfile)
    (cols : List String) (h : p.diagnosis_code ≠ "") :
    (buildFeatures p cols).isSome = true ∧
    ∀ g, icdGroup? p.diagnosis_code = some g → g ∉ cols →
      buildFeatures p cols =
        selectCols? (fillDefaults (derivedInputData p) cols) cols := by
  refine ⟨buildFeatures_isSome p cols h, ?_⟩
  intro g hg hgcols
  unfold buildFeatures
  rw [hg, Option.some_bind]
  show selectCols? (setIcdGroup (fillDefaults (derivedInputData p) cols) g cols)
    cols = _
  rw [setIcdGroup_of_not_mem _ hgcols]

/-- Witness for C2 (amended): a non-alphabetic code, group "5" not in the
schema, still builds. -/
theorem nonemptyCode_buildFeatures_succeeds_witness :
    (buildFeatures numericCodeProfile ["age"]).isSome = true ∧
    ∀ g, icdGroup? numericCodeProfile.diagnosis_code = some g → g ∉ ["age"] →
      buildFeatures numericCodeProfile ["age"] =
        selectCols? (fillDefaults (derivedInputData numericCodeProfile) ["age"]) ["age"] :=
  nonemptyCode_buildFeatures_succeeds numericCodeProfile ["age"] (by decide)

/-- C3: over [0,1] the tier assignment is a total, non-overlapping
partition: probability ≥ 1/2 is exactly HIGH, in [3/10, 1/2) exactly
MODERATE, below 3/10 exactly LOW; in particular 0.5 is HIGH, 0.3 and
0.4999 are MODERATE and 0.2999 is LOW. -/
theorem tier_partition (prob : ℚ) (h0 : 0 ≤ prob) (h1 : prob ≤ 1) :
    ((classifyRisk prob).1 = "HIGH" ↔ 1/2 ≤ prob) ∧
    ((classifyRisk prob).1 = "MODERATE" ↔ 3/10 ≤ prob ∧ prob < 1/2) ∧
    ((classifyRisk prob).1 = "LOW" ↔ prob < 3/10) ∧
    classifyRisk (mkRat 5 10) = ("HIGH", "#d62828") ∧
    classifyRisk (mkRat 3 10) = ("MODERATE", "#f77f00") ∧
    classifyRisk (mkRat 4999 10000) = ("MODERATE", "#f77f00") ∧
    classifyRisk (mkRat 2999 10000) = ("LOW", "#2a9d8f") := by
  have e50 : mkRat 50 100 = 1/2 := by
    rw [Rat.mkRat_eq_divInt, Rat.divInt_eq_div]
    norm_num
  have e30 : mkRat 30 100 = 3/10 := by
    rw [Rat.mkRat_eq_divInt, Rat.divInt_eq_div]
    norm_num
  refine ⟨?_, ?_, ?_, by decide, by decide, by decide, by decide⟩ <;>
    · unfold classifyRisk
      rw [e50, e30]
      split_ifs with h50 h30 <;> simp <;> try constructor
      all_goals try intro hx
      all_goals linarith [h50]

/-- Witness for C3 at probability 1/2. -/
theorem tier_partition_witness :
    ((classifyRisk (mkRat 1 2)).1 = "HIGH" ↔ 1/2 ≤ (mkRat 1 2 : ℚ)) ∧
    ((classifyRisk (mkRat 1 2)).1 = "MODERATE" ↔
      3/10 ≤ (mkRat 1 2 : ℚ) ∧ (mkRat 1 2 : ℚ) < 1/2) ∧
    ((classifyRisk (mkRat 1 2)).1 = "LOW" ↔ (mkRat 1 2 : ℚ) < 3/10) ∧
    classifyRisk (mkRat 5 10) = ("HIGH", "#d62828") ∧
    classifyRisk (mkRat 3 10) = ("MODERATE", "#f77f00") ∧
    classifyRisk (mkRat 4999 10000) = ("MODERATE", "#f77f00") ∧
    classifyRisk (mkRat 2999 10000) = ("LOW", "#2a9d8f") :=
  tier_partition (mkRat 1 2) (by decide) (by decide)

/-- C4: in any successfully built vector whose schema has the column, the
gender_M feature is 1 exactly when gender is Male, and 0 otherwise. -/
theorem gender_M_iff_male (p : PatientProfile) (cols : List String) (fv : Df)
    (h : buildFeatures p cols = some fv) (hc : "gender_M" ∈ cols) :
    (getCol? fv "gender_M" = some 1 ↔ p.gender = Gender.Male) ∧
    (getCol? fv "gender_M" = some 0 ↔ p.gender ≠ Gender.Male) := by
  have hv := (getCol?_buildFeatures_produced h hc (by decide)).trans
    (getCol?_derived_gender p)
  cases hpg : p.gender <;> rw [hpg] at hv <;> simp [hv, hpg]

/-- Witness for C4: the scenario profile (Male) on the demonstration schema. -/
theorem gender_M_iff_male_witness :
    (getCol? demoFv "gender_M" = some 1 ↔ scenarioProfile.gender = Gender.Male) ∧
    (getCol? demoFv "gender_M" = some 0 ↔ scenarioProfile.gender ≠ Gender.Male) :=
  gender_M_iff_male scenarioProfile demoSchema demoFv (by decide) (by decide)

/-- C5: for valid lengths of stay (1-60) and comorbidity counts (0-15) the
los_x_comorb feature is exactly the integer product los × comorbidity. -/
theorem los_x_comorb_exact (p : PatientProfile) (cols : List String) (fv : Df)
    (h : buildFeatures p cols = some fv) (hc : "los_x_comorb" ∈ cols)
    (h1 : 1 ≤ p.los) (h2 : p.los ≤ 60)
    (h3 : 0 ≤ p.comorbidity_count) (h4 : p.comorbidity_count ≤ 15) :
    getCol? fv "los_x_comorb" = some ((p.los * p.comorbidity_count : ℤ) : ℚ) :=
  (getCol?_buildFeatures_produced h hc (by decide)).trans
    (getCol?_derived_los_x_comorb p)

/-- Witness for C5: the scenario (7 × 2 = 14). -/
theorem los_x_comorb_exact_witness :
    getCol? demoFv "los_x_comorb" =
      some ((scenarioProfile.los * scenarioProfile.comorbidity_count : ℤ) : ℚ) :=
  los_x_comorb_exact scenarioProfile demoSchema demoFv (by decide) (by decide)
    (by decide) (by decide) (by decide) (by decide)

theorem some_pyInt_cases {o : Option ℚ} {P : Prop} [Decidable P]
    (h : o = some (pyInt (decide P))) :
    (o = some 1 ↔ P) ∧ (o = some 0 ↔ ¬ P) := by
  by_cases hp : P <;> simp [h, pyInt, hp]

/-- C6: the four flags are 0/1 projections of their exact cutoffs —
glucose strictly above 200, creatinine strictly above 2, hemoglobin
strictly below 10, medications at least 15; in particular glucose 200
gives flag 0 and glucose 250 gives flag 1. -/
theorem threshold_flags (p : PatientProfile) (cols : List String) (fv : Df)
    (h : buildFeatures p cols = some fv)
    (h1 : "glucose_flag" ∈ cols) (h2 : "creatinine_flag" ∈ cols)
    (h3 : "hb_flag" ∈ cols) (h4 : "polypharmacy_flag" ∈ cols) :
    ((getCol? fv "glucose_flag" = some 1 ↔ 200 < p.avg_glucose) ∧
     (getCol? fv "glucose_flag" = some 0 ↔ p.avg_glucose ≤ 200)) ∧
    ((getCol? fv "creatinine_flag" = some 1 ↔ 2 < p.avg_creatinine) ∧
     (getCol? fv "creatinine_flag" = some 0 ↔ p.avg_creatinine ≤ 2)) ∧
    ((getCol? fv "hb_flag" = some 1 ↔ p.avg_hemoglobin < 10) ∧
     (getCol? fv "hb_flag" = some 0 ↔ 10 ≤ p.avg_hemoglobin)) ∧
    ((getCol? fv "polypharmacy_flag" = some 1 ↔ 15 ≤ p.num_medications) ∧
     (getCol? fv "polypharmacy_flag" = some 0 ↔ p.num_medications < 15)) ∧
    getCol? (derivedInputData { scenarioProfile with avg_glucose := 200 })
      "glucose_flag" = some 0 ∧
    getCol? (derivedInputData { scenarioProfile with avg_glucose := 250 })
      "glucose_flag" = some 1 := by
  have hvg := (getCol?_buildFeatures_produced h h1 (by decide)).trans
    (getCol?_derived_glucose_flag p)
  have hvc := (getCol?_buildFeatures_produced h h2 (by decide)).trans
    (getCol?_derived_creatinine_flag p)
  have hvh := (getCol?_buildFeatures_produced h h3 (by decide)).trans
    (getCol?_derived_hb_flag p)
  have hvp := (getCol?_buildFeatures_produced h h4 (by decide)).trans
    (getCol?_derived_polypharmacy_flag p)
  have hg2 := some_pyInt_cases hvg
  have hc2 := some_pyInt_cases hvc
  have hh2 := some_pyInt_cases hvh
  have hp2 := some_pyInt_cases hvp
  exact ⟨⟨hg2.1, hg2.2.trans not_lt⟩, ⟨hc2.1, hc2.2.trans not_lt⟩,
    ⟨hh2.1, hh2.2.trans not_lt⟩, ⟨hp2.1, hp2.2.trans not_le⟩,
    by decide, by decide⟩

/-- Witness for C6: the scenario profile on the demonstration schema. -/
theorem threshold_flags_witness :
    ((getCol? demoFv "glucose_flag" = some 1 ↔
        200 < scenarioProfile.avg_glucose) ∧
     (getCol? demoFv "glucose_flag" = some 0 ↔
        scenarioProfile.avg_glucose ≤ 200)) ∧
    ((getCol? demoFv "creatinine_flag" = some 1 ↔
        2 < scenarioProfile.avg_creatinine) ∧
     (getCol? demoFv "creatinine_flag" = some 0 ↔
        scenarioProfile.avg_creatinine ≤ 2)) ∧
    ((getCol? demoFv "hb_flag" = some 1 ↔ scenarioProfile.avg_hemoglobin < 10) ∧
     (getCol? demoFv "hb_flag" = some 0 ↔ 10 ≤ scenarioProfile.avg_hemoglobin)) ∧
    ((getCol? demoFv "polypharmacy_flag" = some 1 ↔
        15 ≤ scenarioProfile.num_medications) ∧
     (getCol? demoFv "polypharmacy_flag" = some 0 ↔
        scenarioProfile.num_medications < 15)) ∧
    getCol? (derivedInputData { scenarioProfile with avg_glucose := 200 })
      "glucose_flag" = some 0 ∧
    getCol? (derivedInputData { scenarioProfile with avg_glucose := 250 })
      "glucose_flag" = some 1 :=
  threshold_flags scenarioProfile demoSchema demoFv (by decide) (by decide)
    (by decide) (by decide) (by decide)

/-- C7: every schema column that is neither explicitly produced nor the
matched diagnosis-group column has value 0 in the final vector. -/
theorem unproduced_columns_default_to_zero (p : PatientProfile)
    (cols : List String) (fv : Df) (c : String)
    (h : buildFeatures p cols = some fv) (hc : c ∈ cols)
    (hnp : c ∉ producedColumns) (hng : icdGroup? p.diagnosis_code ≠ some c) :
    getCol? fv c = some 0 := by
  rcases getCol?_buildFeatures h hc with ⟨g, hg, heq⟩
  have hcg : c ≠ g := fun hx => hng (hx ▸ hg)
  rw [heq, getCol?_setIcdGroup_ne _ _ hcg]
  have hnc : hasCol (derivedInputData p) c = false := by
    cases hx : hasCol (derivedInputData p) c
    · rfl
    · exact absurd ((hasCol_derivedInputData p c).1 hx) hnp
  exact getCol?_fillDefaults_of_not_hasCol hnc hc

/-- Witness for C7: the unproduced column "xtra" of the demonstration
schema is 0. -/
theorem unproduced_columns_default_to_zero_witness :
    getCol? demoFv "xtra" = some 0 :=
  unproduced_columns_default_to_zero scenarioProfile demoSchema demoFv "xtra"
    (by decide) (by decide) (by decide) (by decide)

/-- C9: the end-to-end scenario (age 65, Male, "I50.9", LOS 7, 2 previous
admissions, 2 comorbidities, 10 medications, creatinine 1.2, hemoglobin
12.0, glucose 110) yields all four flags 0, los_x_comorb 14, gender_M 1,
and the "I" diagnosis-group column 1 whenever "I" is in the schema. -/
theorem scenario_features (cols : List String) (fv : Df)
    (h : buildFeatures scenarioProfile cols = some fv) :
    ("glucose_flag" ∈ cols → getCol? fv "glucose_flag" = some 0) ∧
    ("creatinine_flag" ∈ cols → getCol? fv "creatinine_flag" = some 0) ∧
    ("hb_flag" ∈ cols → getCol? fv "hb_flag" = some 0) ∧
    ("polypharmacy_flag" ∈ cols → getCol? fv "polypharmacy_flag" = some 0) ∧
    ("los_x_comorb" ∈ cols → getCol? fv "los_x_comorb" = some 14) ∧
    ("gender_M" ∈ cols → getCol? fv "gender_M" = some 1) ∧
    ("I" ∈ cols → getCol? fv "I" = some 1) := by
  refine ⟨fun hc => ?_, fun hc => ?_, fun hc => ?_, fun hc => ?_,
    fun hc => ?_, fun hc => ?_, fun hc => ?_⟩
  · exact (getCol?_buildFeatures_produced h hc (by decide)).trans (by decide)
  · exact (getCol?_buildFeatures_produced h hc (by decide)).trans (by decide)
  · exact (getCol?_buildFeatures_produced h hc (by decide)).trans (by decide)
  · exact (getCol?_buildFeatures_produced h hc (by decide)).trans (by decide)
  · exact (getCol?_buildFeatures_produced h hc (by decide)).trans (by decide)
  · exact (getCol?_buildFeatures_produced h hc (by decide)).trans (by decide)
  · rcases getCol?_buildFeatures h hc with ⟨g, hg, heq⟩
    have h0 : icdGroup? scenarioProfile.diagnosis_code = some "I" := by decide
    rw [h0] at hg
    have hgI : g = "I" := by
      cases hg
      rfl
    subst hgI
    rw [heq]
    exact getCol?_setIcdGroup_self _ hc

/-- Witness for C9: the demonstration schema contains all the named
columns, including "I". -/
theorem scenario_features_witness :
    ("glucose_flag" ∈ demoSchema → getCol? demoFv "glucose_flag" = some 0) ∧
    ("creatinine_flag" ∈ demoSchema → getCol? demoFv "creatinine_flag" = some 0) ∧
    ("hb_flag" ∈ demoSchema → getCol? demoFv "hb_flag" = some 0) ∧
    ("polypharmacy_flag" ∈ demoSchema →
      getCol? demoFv "polypharmacy_flag" = some 0) ∧
    ("los_x_comorb" ∈ demoSchema → getCol? demoFv "los_x_comorb" = some 14) ∧
    ("gender_M" ∈ demoSchema → getCol? demoFv "gender_M" = some 1) ∧
    ("I" ∈ demoSchema → getCol? demoFv "I" = some 1) :=
  scenario_features demoSchema demoFv (by decide)

/-- C10: feature building and tier classification are deterministic — equal
profiles and schemas give equal feature vectors, and equal probabilities
give the same tier level and display color; no hidden state enters. -/
theorem stages_deterministic :
    (∀ (p₁ p₂ : PatientProfile) (cols₁ cols₂ : List String),
      p₁ = p₂ → cols₁ = cols₂ → buildFeatures p₁ cols₁ = buildFeatures p₂ cols₂) ∧
    (∀ q₁ q₂ : ℚ, q₁ = q₂ → classifyRisk q₁ = classifyRisk q₂) := by
  constructor
  · intro p₁ p₂ cols₁ cols₂ hp hcols
    rw [hp, hcols]
  · intro q₁ q₂ hq
    rw [hq]

/-- Witness for C10: the scenario run twice. -/
theorem stages_deterministic_witness :
    buildFeatures scenarioProfile demoSchema =
      buildFeatures scenarioProfile demoSchema ∧
    classifyRisk (mkRat 1 2) = classifyRisk (mkRat 1 2) :=
  ⟨stages_deterministic.1 scenarioProfile scenarioProfile demoSchema demoSchema
      rfl rfl,
    stages_deterministic.2 (mkRat 1 2) (mkRat 1 2) rfl⟩

/-! ## Facts about the report identifier (C8) -/

theorem digestBytes_length (st : Sha256State) : (digestBytes st).length = 32 := by
  rcases st with ⟨a, b, c, d, e, f, g, h⟩
  simp [digestBytes, wordBytes]

theorem sha256_length (msg : List ℕ) : (sha256 msg).length = 32 :=
  digestBytes_length _

theorem hexdigestChars_length (bytes : List ℕ) :
    (hexdigestChars bytes).length = 2 * bytes.length := by
  induction bytes with
  | nil => rfl
  | cons b t ih =>
    simp only [hexdigestChars, List.flatMap_cons, List.length_append,
      List.length_cons, byteHex, List.length_nil] at ih ⊢
    omega

theorem reportId_data_length (now : String) (age : ℤ) (code : String) :
    (reportId now age code).data.length = 12 := by
  unfold reportId
  simp [List.length_take, hexdigestChars_length, sha256_length]

theorem reportId_length (now : String) (age : ℤ) (code : String) :
    (reportId now age code).length = 12 :=
  reportId_data_length now age code

theorem hexChar_mem (n : ℕ) : hexChar n ∈ hexDigits := by
  rcases Nat.lt_or_ge n 16 with h | h
  · interval_cases n <;> decide
  · have h16 : hexDigits.length = 16 := rfl
    have hnone : hexDigits[n]? = none := List.getElem?_eq_none (by omega)
    unfold hexChar
    rw [List.getD_eq_getElem?_getD, hnone]
    decide

theorem mem_hexdigestChars {ch : Char} {bytes : List ℕ}
    (h : ch ∈ hexdigestChars bytes) : ch ∈ hexDigits := by
  unfold hexdigestChars at h
  rcases List.mem_flatMap.1 h with ⟨b, _, hb⟩
  simp only [byteHex, List.mem_cons, List.not_mem_nil, or_false] at hb
  rcases hb with hb | hb <;> rw [hb] <;> exact hexChar_mem _

theorem reportId_chars {now : String} {age : ℤ} {code : String} {ch : Char}
    (h : ch ∈ (reportId now age code).data) : ch ∈ hexUpper := by
  unfold reportId at h
  rcases List.mem_map.1 h with ⟨d, hd, rfl⟩
  have hdh : d ∈ hexDigits := mem_hexdigestChars (List.mem_of_mem_take hd)
  have hup : ∀ d ∈ hexDigits, d.toUpper ∈ hexUpper := by decide
  exact hup d hdh

/-- C8 (amended): the report identifier is a deterministic function of the
(timestamp, age, diagnosis_code) triple — identical triples give identical
identifiers — and is always a 12-character token over the uppercase hex
alphabet; distinct triples, however, are not guaranteed distinct
identifiers (the truncation to 12 hex characters admits collisions). -/
theorem reportId_deterministic_format :
    (∀ (now₁ now₂ : String) (age₁ age₂ : ℤ) (code₁ code₂ : String),
      now₁ = now₂ → age₁ = age₂ → code₁ = code₂ →
        reportId now₁ age₁ code₁ = reportId now₂ age₂ code₂) ∧
    (∀ (now : String) (age : ℤ) (code : String),
      (reportId now age code).length = 12 ∧
      ∀ ch ∈ (reportId now age code).data, ch ∈ hexUpper) := by
  constructor
  · intro now₁ now₂ age₁ age₂ code₁ code₂ h1 h2 h3
    rw [h1, h2, h3]
  · intro now age code
    exact ⟨reportId_length now age code, fun ch hch => reportId_chars hch⟩

/-- Witness for C8 (amended) at a concrete triple. -/
theorem reportId_deterministic_format_witness :
    reportId "2026-10-12 08:00:00" 65 "I50.9" =
      reportId "2026-10-12 08:00:00" 65 "I50.9" :=
  reportId_deterministic_format.1 "2026-10-12 08:00:00" "2026-10-12 08:00:00"
    65 65 "I50.9" "I50.9" rfl rfl rfl

/-! ## The truncated identifier cannot distinguish all triples -/

theorem two_pow_32_eq : (2 : ℕ) ^ 32 = 4294967296 := by norm_num

theorem char_toNat_lt (c : Char) : c.toNat < 2 ^ 32 := by
  have h := c.val.toNat_lt
  norm_num at h ⊢
  exact h

theorem charListVal_pos (l : List Char) : 1 ≤ charListVal l := by
  induction l with
  | nil => exact Nat.le_refl 1
  | cons c t ih =>
    have h1 : 1 * 2 ^ 32 ≤ charListVal t * 2 ^ 32 := Nat.mul_le_mul_right _ ih
    simp only [charListVal]
    rw [two_pow_32_eq] at h1 ⊢
    omega

theorem charListVal_inj : ∀ l₁ l₂ : List Char,
    charListVal l₁ = charListVal l₂ → l₁ = l₂ := by
  intro l₁
  induction l₁ with
  | nil =>
    intro l₂ h
    cases l₂ with
    | nil => rfl
    | cons c t =>
      exfalso
      have h1 : 1 * 2 ^ 32 ≤ charListVal t * 2 ^ 32 :=
        Nat.mul_le_mul_right _ (charListVal_pos t)
      simp only [charListVal] at h
      rw [two_pow_32_eq] at h1 h
      omega
  | cons c t ih =>
    intro l₂ h
    cases l₂ with
    | nil =>
      exfalso
      have h1 : 1 * 2 ^ 32 ≤ charListVal t * 2 ^ 32 :=
        Nat.mul_le_mul_right _ (charListVal_pos t)
      simp only [charListVal] at h
      rw [two_pow_32_eq] at h1 h
      omega
    | cons c' t' =>
      simp only [charListVal] at h
      have hc := char_toNat_lt c
      have hc' := char_toNat_lt c'
      rw [two_pow_32_eq] at h hc hc'
      have hcc : c.toNat = c'.toNat := by omega
      have hvv : charListVal t = charListVal t' := by omega
      have hch : c = c' := by
        rw [← Char.ofNat_toNat c, ← Char.ofNat_toNat c', hcc]
      rw [hch, ih t' hvv]

theorem charListVal_lt (l : List Char) :
    charListVal l < 2 ^ (32 * (l.length + 1)) := by
  induction l with
  | nil =>
    show 1 < 2 ^ (32 * 1)
    norm_num
  | cons c t ih =>
    have hc : c.toNat < 2 ^ 32 := char_toNat_lt c
    show charListVal t * 2 ^ 32 + c.toNat < _
    calc charListVal t * 2 ^ 32 + c.toNat
        < (charListVal t + 1) * 2 ^ 32 := by
          rw [two_pow_32_eq] at hc ⊢
          omega
      _ ≤ 2 ^ (32 * (t.length + 1)) * 2 ^ 32 :=
          Nat.mul_le_mul_right _ (Nat.succ_le_of_lt ih)
      _ = 2 ^ (32 * ((c :: t).length + 1)) := by
          rw [← pow_add]
          congr 1

/-- C8 counterexample: the claim that any change to the (timestamp, age,
diagnosis_code) triple yields a different identifier is false — a
12-hex-character token ranges over finitely many values while the triples
are infinite, so some two distinct triples share an identifier. -/
theorem reportId_not_injective :
    ¬ (∀ (now₁ now₂ : String) (age₁ age₂ : ℤ) (code₁ code₂ : String),
        reportId now₁ age₁ code₁ = reportId now₂ age₂ code₂ →
        now₁ = now₂ ∧ age₁ = age₂ ∧ code₁ = code₂) := by
  intro hinj
  have hbound : ∀ n : ℕ,
      charListVal (reportId "t" 0 (String.mk (List.replicate n 'a'))).data
        < 2 ^ (32 * 13) := by
    intro n
    have h := charListVal_lt (reportId "t" 0 (String.mk (List.replicate n 'a'))).data
    rw [reportId_data_length] at h
    exact h
  obtain ⟨m, n, hmn, heq⟩ := Finite.exists_ne_map_eq_of_infinite
    (fun k : ℕ =>
      (⟨charListVal (reportId "t" 0 (String.mk (List.replicate k 'a'))).data,
        hbound k⟩ : Fin (2 ^ (32 * 13))))
  have hv := congrArg Fin.val heq
  have hdata := charListVal_inj _ _ hv
  have hstr : reportId "t" 0 (String.mk (List.replicate m 'a')) =
      reportId "t" 0 (String.mk (List.replicate n 'a')) := String.ext hdata
  have hcode := (hinj _ _ _ _ _ _ hstr).2.2
  have hrep : List.replicate m 'a' = List.replicate n 'a' :=
    congrArg String.data hcode
  have hlen := congrArg List.length hrep
  simp only [List.length_replicate] at hlen
  exact hmn hlen

end ClinicalApp
